import Mathlib

/-!
Verification of the plate-hydration protocol and client orchestrator of the
autohaus-unified-core repository.

The development shallowly embeds the two orchestrator implementations found in
the source:

* the WebSocket message handler, zod validation schemas and sensory feedback
  engine of the richer `OrchestratorProvider` (the context module importing
  `zod`), modelled over a JSON value type; and
* the staged-file / send / collision-resolve / anomaly-decision logic of
  `10_IT_AI_Core_Layer/frontend/src/contexts/OrchestratorContext.tsx` together
  with the `AnomalyPlate` button logic from `LLM_ORCHESTRATION_PLAN.md`.

JavaScript numbers are modelled as rationals (no NaN arises in any of the
values the claims touch), JS objects as association lists with unique keys
(the shape `JSON.parse` produces), and JS truthiness is made explicit.
-/

namespace Autohaus

/-- A JSON value as produced by `JSON.parse` on an incoming frame. -/
inductive Json where
  | null
  | bool (b : Bool)
  | num (q : Rat)
  | str (s : String)
  | arr (elems : List Json)
  | obj (fields : List (String × Json))

/-- Key lookup in a JS object (association list; `JSON.parse` yields unique keys). -/
def jlookup : List (String × Json) → String → Option Json
  | [], _ => none
  | (k, v) :: rest, key => if k == key then some v else jlookup rest key

/-- Property access `data.key`: `none` models `undefined` (missing key or
non-object receiver). -/
def jget : Json → String → Option Json
  | .obj fields, key => jlookup fields key
  | _, _ => none

/-- JavaScript truthiness of a JSON value. -/
def truthy : Json → Bool
  | .null => false
  | .bool b => b
  | .num q => q != 0
  | .str s => s != ""
  | .arr _ => true
  | .obj _ => true

/-- Truthiness of a possibly-`undefined` property access. -/
def truthyOpt : Option Json → Bool
  | none => false
  | some v => truthy v

/-- The strict comparison `data.type === s` for a string literal `s`. -/
def typeFieldIs (data : Json) (s : String) : Bool :=
  match jget data "type" with
  | some (.str t) => t == s
  | _ => false

/-- Overwrite-or-append of one key, the effect of `{...data, key: v}` on the
named key (existing keys keep their position, new keys are appended). -/
def setKey : List (String × Json) → String → Json → List (String × Json)
  | [], key, v => [(key, v)]
  | (k, w) :: rest, key, v =>
      if k == key then (key, v) :: rest else (k, w) :: setKey rest key v

/-- Spread-override `{...j, key: v}` on a JSON value (identity on non-objects; in the handler
it is only applied to objects). -/
def setJField (j : Json) (key : String) (v : Json) : Json :=
  match j with
  | .obj fields => .obj (setKey fields key v)
  | other => other

/-- Shape check of `z.string()`. -/
def isStr : Json → Bool
  | .str _ => true
  | _ => false

/-- Shape check of `z.number()`. -/
def isNum : Json → Bool
  | .num _ => true
  | _ => false

/-- Shape check of `z.boolean()`. -/
def isBoolJ : Json → Bool
  | .bool _ => true
  | _ => false

/-- Shape check of `z.record(z.string(), z.any())`: a plain object. -/
def isRecordJ : Json → Bool
  | .obj _ => true
  | _ => false

/-- Shape check of `z.array(z.any())`. -/
def isArrJ : Json → Bool
  | .arr _ => true
  | _ => false

/-- Shape check of `z.string().nullable()`. -/
def isNullableStr : Json → Bool
  | .str _ => true
  | .null => true
  | _ => false

/-- The nested `strategy` object schema of `GenericPlateSchema`:
`{skin: string, urgency: number, vibration: boolean, overlay: string | null}`. -/
def checkStrategyObj : Json → Bool
  | .obj fs =>
      (match jlookup fs "skin" with | some v => isStr v | none => false) &&
      (match jlookup fs "urgency" with | some v => isNum v | none => false) &&
      (match jlookup fs "vibration" with | some v => isBoolJ v | none => false) &&
      (match jlookup fs "overlay" with | some v => isNullableStr v | none => false)
  | _ => false

/-- One required field of a zod object schema; `some` is the issue message of
the first failing check. -/
def reqField (fs : List (String × Json)) (key : String) (check : Json → Bool) :
    Option String :=
  match jlookup fs key with
  | none => some (key ++ ": Required")
  | some v => if check v then none else some (key ++ ": Invalid type")

/-- One `.optional()` field of a zod object schema. -/
def optField (fs : List (String × Json)) (key : String) (check : Json → Bool) :
    Option String :=
  match jlookup fs key with
  | none => none
  | some v => if check v then none else some (key ++ ": Invalid type")

/-- First issue of a list of field results (`error.issues[0]`). -/
def firstErr : List (Option String) → Option String
  | [] => none
  | none :: rest => firstErr rest
  | some e :: _ => some e

/-- Model of `GenericPlateSchema.safeParse`: `none` is success, `some msg` carries the
first issue message. -/
def GenericPlateSchema (j : Json) : Option String :=
  match j with
  | .obj fs =>
      firstErr [reqField fs "type" isStr, reqField fs "plate_id" isStr,
        reqField fs "intent" isStr, reqField fs "confidence" isNum,
        reqField fs "entities" isRecordJ, reqField fs "target_entity" isStr,
        reqField fs "suggested_action" isStr, reqField fs "strategy" checkStrategyObj,
        reqField fs "timestamp" isStr, reqField fs "dataset" isArrJ]
  | _ => some "Expected object, received other"

/-- Model of `FinancePlateSchema.safeParse`. -/
def FinancePlateSchema (j : Json) : Option String :=
  match j with
  | .obj fs =>
      firstErr [reqField fs "vin" isStr, reqField fs "lender_name" isStr,
        reqField fs "principal_amount" isNum, optField fs "interest_rate" isNum,
        optField fs "maturity_date" isStr]
  | _ => some "Expected object, received other"

/-- Model of `InventoryPlateSchema.safeParse`. -/
def InventoryPlateSchema (j : Json) : Option String :=
  match j with
  | .obj fs =>
      firstErr [reqField fs "vin" isStr, optField fs "make" isStr,
        optField fs "model" isStr, reqField fs "status" isStr]
  | _ => some "Expected object, received other"

/-- The `switch (plateId)` of `validatePlatePayload`: `some r` when the plate
id names a specialized schema (with `r` that schema's result), `none` when the
id falls into the `default` branch. -/
def specializedCheck (plateId : String) (payload : Json) : Option (Option String) :=
  if plateId == "FINANCE_NOTE" || plateId == "FINANCE_CHART" then
    some (FinancePlateSchema payload)
  else if plateId == "INVENTORY_TABLE" then
    some (InventoryPlateSchema payload)
  else none

/-- Model of `validatePlatePayload(plateId, payload)`: the structural check first, then
the type-specific schema for known plate ids; the `default` branch returns the
(successful) structural result. `plateId` is the raw `data.plate_id` access. -/
def validatePlatePayload (plateId : Option Json) (payload : Json) : Option String :=
  match GenericPlateSchema payload with
  | some e => some e
  | none =>
      match plateId with
      | some (.str pid) =>
          match specializedCheck pid payload with
          | some r => r
          | none => none
      | _ => none

/-- The `UIStrategy` record carried by a plate frame. -/
structure UIStrategy where
  skin : String
  urgency : Rat
  vibration : Bool
  overlay : Option String

/-- Which best-effort sensory paths fire for one directive. -/
structure FeedbackEffects where
  haptic : Bool
  audible : Bool

/-- Model of `triggerSensoryFeedback`: the haptic branch requires the vibration flag and
host support (the vibrate-in-navigator membership test); the audible branch requires
`strategy.urgency >= 9`. -/
def triggerSensoryFeedback (hostCanVibrate : Bool) (s : UIStrategy) : FeedbackEffects :=
  { haptic := s.vibration && hostCanVibrate,
    audible := decide ((9 : Rat) ≤ s.urgency) }

/-- The unchecked cast `data.strategy as UIStrategy` (field defaults are never
hit on a frame that passed the structural schema). -/
def strategyOfJson (j : Json) : UIStrategy :=
  { skin := match jget j "skin" with | some (.str s) => s | _ => ""
  , urgency := match jget j "urgency" with | some (.num q) => q | _ => 0
  , vibration := match jget j "vibration" with | some (.bool b) => b | _ => false
  , overlay := match jget j "overlay" with | some (.str s) => some s | _ => none }

/-- A transcript entry of the zod-validating provider (fields as read off the
incoming frame). -/
structure WsChatMessage where
  id : Nat
  isBot : Bool
  time : String
  text : Option Json
  intent : Option Json
  entity : Option Json
  confidence : Option Json

/-- The orchestrator state touched by `ws.onmessage`. -/
structure WsState where
  activeSkin : String
  latestPlate : Option Json
  messages : List WsChatMessage

/-- Side effects of handling one frame: number of render-error report POSTs
attempted, and the sensory feedback issued. -/
structure WsEffects where
  renderErrorPosts : Nat
  feedback : FeedbackEffects

/-- No POST, no feedback. -/
def quietEffects : WsEffects :=
  { renderErrorPosts := 0, feedback := { haptic := false, audible := false } }

/-- JS `a || b` on two property accesses (first operand wins when truthy). -/
def jsOrJson (a b : Option Json) : Option Json :=
  if truthyOpt a then a else b

/-- JS `s || d` for a string `s` and non-empty default `d`. -/
def jsStrOr (s d : String) : String :=
  if s == "" then d else s

/-- The bot message appended by the `SYSTEM` / `CHAT_RESPONSE` branch. -/
def mkBotMessage (nowMs : Nat) (timeStr : String) (data : Json) : WsChatMessage :=
  { id := nowMs, isBot := true, time := timeStr,
    text := jsOrJson (jget data "message") (jget data "text"),
    intent := jget data "intent",
    entity := jsOrJson (jget data "target_entity") (jget data "entity"),
    confidence := jget data "confidence" }

/-- Model of `ws.onmessage` on an already-parsed frame.  The `MOUNT_PLATE` branch runs
only when the type field strictly equals the mount sentinel and the strategy field is truthy; a validation failure
synthesises the corrupt payload `{...data, validation_error, is_corrupt: true}`,
mounts it and fires exactly one render-error POST; a validation success mounts
the frame, switches the skin to `strategy.skin` and triggers sensory
feedback. -/
def handleWsMessage (hostCanVibrate : Bool) (nowMs : Nat) (timeStr : String)
    (st : WsState) (data : Json) : WsState × WsEffects :=
  if typeFieldIs data "MOUNT_PLATE" && truthyOpt (jget data "strategy") then
    match validatePlatePayload (jget data "plate_id") data with
    | some err =>
        let failedPayload :=
          setJField (setJField data "validation_error"
            (.str (jsStrOr err "Validation failed"))) "is_corrupt" (.bool true)
        ({ st with latestPlate := some failedPayload },
         { renderErrorPosts := 1, feedback := { haptic := false, audible := false } })
    | none =>
        let strategy := strategyOfJson ((jget data "strategy").getD .null)
        ({ activeSkin := strategy.skin, latestPlate := some data,
           messages := st.messages },
         { renderErrorPosts := 0,
           feedback := triggerSensoryFeedback hostCanVibrate strategy })
  else if typeFieldIs data "SYSTEM" || typeFieldIs data "CHAT_RESPONSE" then
    ({ st with messages := st.messages ++ [mkBotMessage nowMs timeStr data] },
     quietEffects)
  else
    (st, quietEffects)

/-- The provider's initial greeting transcript entry. -/
def wsGreeting : WsChatMessage :=
  { id := 0, isBot := true, time := "09:41",
    text := some (.str "Good morning, Ahsin. System primitives active. Neural Membrane monitoring 00_Inbox. How would you like to begin?"),
    intent := some (.str "SYSTEM"), entity := some (.str "CARBON_LLC"),
    confidence := some (.num 100) }

/-- The provider's initial orchestrator state. -/
def initWsState : WsState :=
  { activeSkin := "SUPER_ADMIN", latestPlate := none, messages := [wsGreeting] }

/-- A user-selected attachment awaiting send
(`10_IT_AI_Core_Layer/frontend/src/contexts/OrchestratorContext.tsx`);
`preview` is the object URL created for image files. -/
structure StagedFile where
  name : String
  size : Nat
  mime : String
  preview : Option String

/-- A transcript entry of the demo orchestrator context. -/
structure CtxMessage where
  id : Nat
  isBot : Bool
  time : String
  text : Option String
  intent : Option String
  entity : Option String
  confidence : Option Nat
  attachments : Option (List StagedFile)

/-- One candidate in the collision (ambiguity-resolution) plate. -/
structure EntityOption where
  vin : String
  entity : String
  year : Nat
  model : String
  color : String
  insurance : String
  lot : String
  daysOnLot : Nat

/-- The demo orchestrator state touched by the staged-file, send, resolve and
reply flows. -/
structure CtxState where
  messages : List CtxMessage
  input : String
  plate : Option String
  processing : Bool
  stagedFiles : List StagedFile

/-- A frame sent over the WebSocket by the demo orchestrator
(`{type: "chat", text, user_id}`). -/
structure SentFrame where
  kind : String
  text : String
  userId : String

/-- Model of `stageFiles`: append the newly constructed staged records and keep the
first five of the concatenation (`[...p, ...files].slice(0, 5)`). -/
def stageFiles (st : CtxState) (files : List StagedFile) : CtxState :=
  { st with stagedFiles := (st.stagedFiles ++ files).take 5 }

/-- Model of `removeStaged(i)`, that is `p.filter((_, idx) => idx !== i)`. -/
def removeStaged (st : CtxState) (i : Nat) : CtxState :=
  { st with stagedFiles :=
      ((st.stagedFiles.enum.filter (fun p => p.1 != i)).map Prod.snd) }

/-- JavaScript `text.trim()`: strip leading and trailing whitespace
(executable model of the standard trim, structural on the character list). -/
def jsTrim (s : String) : String :=
  String.mk (((s.data.dropWhile Char.isWhitespace).reverse.dropWhile
    Char.isWhitespace).reverse)

/-- Model of `sendMessage(text, files)`: guard on non-empty trimmed text or at least one
file and no send in flight; on pass, append the human message, clear input and
staged files, set the processing flag, and transmit a chat frame when the
socket is open and text is present.  The simulated-reply timer it schedules is
modelled separately by `replyArrives`. -/
def sendMessage (st : CtxState) (wsOpen : Bool) (userId : String)
    (nowMs : Nat) (timeStr : String) (text : String) (files : List StagedFile) :
    CtxState × List SentFrame :=
  let hasText := jsTrim text != ""
  let hasFiles := decide (0 < files.length)
  if (!hasText && !hasFiles) || st.processing then (st, [])
  else
    let userMsg : CtxMessage :=
      { id := nowMs, isBot := false, time := timeStr,
        text := if hasText then some text else none,
        intent := none, entity := none, confidence := none,
        attachments := if hasFiles then some files else none }
    ({ st with messages := st.messages ++ [userMsg], input := "",
               stagedFiles := [], processing := true },
     if wsOpen && hasText then [{ kind := "chat", text := text, userId := userId }]
     else [])

/-- The confirmation text interpolated by `handleResolve`. -/
def collisionResolvedText (v : EntityOption) : String :=
  "Collision resolved. Entity confirmed: " ++ v.entity ++ " · VIN " ++ v.vin ++
    ". Workflow resumed. Identity Engine updated. What update would you like to apply?"

/-- The confirmation message `handleResolve` appends. -/
def collisionMessage (nowMs : Nat) (timeStr : String) (v : EntityOption) :
    CtxMessage :=
  { id := nowMs, isBot := true, time := timeStr,
    text := some (collisionResolvedText v), intent := some "INVENTORY",
    entity := some v.entity, confidence := some 100, attachments := none }

/-- Model of `handleResolve(vehicle)`: append the confirmation message and clear the
active plate.  The handler performs no WebSocket send, so the transmitted-frame
list is empty. -/
def handleResolve (st : CtxState) (nowMs : Nat) (timeStr : String)
    (v : EntityOption) : CtxState × List SentFrame :=
  ({ st with messages := st.messages ++ [collisionMessage nowMs timeStr v],
             plate := none }, [])

/-- The simulated-reply timer callback scheduled by `sendMessage`: appends one
bot reply, mounts a plate when the matched flow names one, and clears the
processing flag; it never touches the staged-file list. -/
def replyArrives (st : CtxState) (reply : CtxMessage)
    (flowPlate : Option String) : CtxState :=
  { st with messages := st.messages ++ [reply],
            plate := match flowPlate with | some p => some p | none => st.plate,
            processing := false }

/-- One user/timer operation on the demo orchestrator state. -/
inductive CtxOp where
  | stage (files : List StagedFile)
  | remove (i : Nat)
  | send (wsOpen : Bool) (userId : String) (nowMs : Nat) (timeStr : String)
      (text : String) (files : List StagedFile)
  | resolve (nowMs : Nat) (timeStr : String) (v : EntityOption)
  | reply (m : CtxMessage) (flowPlate : Option String)

/-- Apply one operation. -/
def ctxStep (st : CtxState) (op : CtxOp) : CtxState :=
  match op with
  | .stage files => stageFiles st files
  | .remove i => removeStaged st i
  | .send w u n t text files => (sendMessage st w u n t text files).1
  | .resolve n t v => (handleResolve st n t v).1
  | .reply m p => replyArrives st m p

/-- The demo orchestrator's initial greeting transcript entry. -/
def ctxGreeting : CtxMessage :=
  { id := 0, isBot := true, time := "09:41",
    text := some "Good morning, Ahsin. All 11 primitives active. Anomaly monitor swept 4 minutes ago — 1 flag requires your attention. Lineage log clean. How would you like to begin?",
    intent := some "SYSTEM", entity := some "CARBON_LLC", confidence := some 100,
    attachments := none }

/-- The demo orchestrator's initial state. -/
def initCtxState : CtxState :=
  { messages := [ctxGreeting], input := "", plate := none, processing := false,
    stagedFiles := [] }

/-- The two collision candidates of the source's `ENTITY_OPTIONS`. -/
def entityOptionKamm : EntityOption :=
  { vin := "WBA93HM0XP1234567", entity := "KAMM_LLC", year := 2023,
    model := "BMW M4 Competition", color := "Frozen Black",
    insurance := "Unified Auto-Owners — Garagekeepers", lot := "KAMM Lot A",
    daysOnLot := 23 }

/-- Second collision candidate of the source's `ENTITY_OPTIONS`. -/
def entityOptionFluiditruck : EntityOption :=
  { vin := "WBA93HM0XP9876543", entity := "FLUIDITRUCK_LLC", year := 2023,
    model := "BMW M4 Competition", color := "Isle of Man Green",
    insurance := "Unified Auto-Owners — Fleet", lot := "Fluiditruck Bay 3",
    daysOnLot := 7 }

/-- The `ENTITY_OPTIONS` constant. -/
def ENTITY_OPTIONS : List EntityOption :=
  [entityOptionKamm, entityOptionFluiditruck]

/-- Local view state of `AnomalyPlate` (from the plan document's component):
the recorded decision (`state`), the override-reason text, and whether the
reason input is shown. -/
structure AnomalyUI where
  decisionState : Option String
  overrideText : String
  showOverride : Bool

/-- An interaction with the anomaly plate. -/
inductive AnomalyEvent where
  | clickApprove
  | clickOverride
  | setOverrideText (s : String)

/-- One interaction step of `AnomalyPlate`; the second component is the
`onDecision` invocation the step performs, if any.  The decision buttons and
the reason input are only rendered while no decision has been recorded; the
override button first reveals the reason input and then records `OVERRIDE`
only when the reason text is truthy (non-empty). -/
def anomalyStep (ui : AnomalyUI) (e : AnomalyEvent) : AnomalyUI × Option String :=
  match e with
  | .clickApprove =>
      if ui.decisionState.isSome then (ui, none)
      else ({ ui with decisionState := some "APPROVED" }, some "APPROVED")
  | .clickOverride =>
      if ui.decisionState.isSome then (ui, none)
      else if !ui.showOverride then ({ ui with showOverride := true }, none)
      else if ui.overrideText != "" then
        ({ ui with decisionState := some "OVERRIDE" }, some "OVERRIDE")
      else (ui, none)
  | .setOverrideText s =>
      if ui.decisionState.isSome || !ui.showOverride then (ui, none)
      else ({ ui with overrideText := s }, none)

/-- The anomaly plate's initial view state. -/
def initAnomalyUI : AnomalyUI :=
  { decisionState := none, overrideText := "", showOverride := false }

/-! ### Helper lemmas about the validator and JSON model -/

theorem firstErr_eq_none : ∀ {l : List (Option String)}, firstErr l = none →
    ∀ x ∈ l, x = none := by
  intro l
  induction l with
  | nil => intro _ x hx; cases hx
  | cons a rest ih =>
    intro h x hx
    cases a with
    | some e => simp [firstErr] at h
    | none =>
      rcases List.mem_cons.mp hx with h1 | h2
      · exact h1
      · exact ih h x h2

theorem reqField_eq_none {fs : List (String × Json)} {key : String}
    {check : Json → Bool} (h : reqField fs key check = none) :
    ∃ v, jlookup fs key = some v ∧ check v = true := by
  unfold reqField at h
  cases hj : jlookup fs key with
  | none => rw [hj] at h; simp at h
  | some v =>
    rw [hj] at h
    by_cases hc : check v = true
    · exact ⟨v, rfl, hc⟩
    · rw [Bool.not_eq_true] at hc
      simp [hc] at h

theorem checkStrategyObj_parts {j : Json} (h : checkStrategyObj j = true) :
    ∃ sfs, j = .obj sfs ∧ (∃ s, jlookup sfs "skin" = some (.str s)) ∧
      (∃ q, jlookup sfs "urgency" = some (.num q)) ∧
      (∃ b, jlookup sfs "vibration" = some (.bool b)) := by
  cases j with
  | obj sfs =>
    refine ⟨sfs, rfl, ?skin, ?urg, ?vib⟩
    case skin =>
      unfold checkStrategyObj at h
      simp only [Bool.and_eq_true] at h
      have h1 := h.1.1.1
      cases hs : jlookup sfs "skin" with
      | none => rw [hs] at h1; simp at h1
      | some v =>
        rw [hs] at h1
        cases v <;> simp [isStr] at h1
        exact ⟨_, rfl⟩
    case urg =>
      unfold checkStrategyObj at h
      simp only [Bool.and_eq_true] at h
      have h1 := h.1.1.2
      cases hs : jlookup sfs "urgency" with
      | none => rw [hs] at h1; simp at h1
      | some v =>
        rw [hs] at h1
        cases v <;> simp [isNum] at h1
        exact ⟨_, rfl⟩
    case vib =>
      unfold checkStrategyObj at h
      simp only [Bool.and_eq_true] at h
      have h1 := h.1.2
      cases hs : jlookup sfs "vibration" with
      | none => rw [hs] at h1; simp at h1
      | some v =>
        rw [hs] at h1
        cases v <;> simp [isBoolJ] at h1
        exact ⟨_, rfl⟩
  | null => simp [checkStrategyObj] at h
  | bool b => simp [checkStrategyObj] at h
  | num q => simp [checkStrategyObj] at h
  | str s => simp [checkStrategyObj] at h
  | arr xs => simp [checkStrategyObj] at h

theorem GenericPlateSchema_obj {j : Json} (h : GenericPlateSchema j = none) :
    ∃ fs, j = .obj fs := by
  cases j with
  | obj fs => exact ⟨fs, rfl⟩
  | null => simp [GenericPlateSchema] at h
  | bool b => simp [GenericPlateSchema] at h
  | num q => simp [GenericPlateSchema] at h
  | str s => simp [GenericPlateSchema] at h
  | arr xs => simp [GenericPlateSchema] at h

theorem generic_strategy_field {fs : List (String × Json)}
    (h : GenericPlateSchema (.obj fs) = none) :
    ∃ v, jlookup fs "strategy" = some v ∧ checkStrategyObj v = true := by
  have h' : firstErr [reqField fs "type" isStr, reqField fs "plate_id" isStr,
      reqField fs "intent" isStr, reqField fs "confidence" isNum,
      reqField fs "entities" isRecordJ, reqField fs "target_entity" isStr,
      reqField fs "suggested_action" isStr, reqField fs "strategy" checkStrategyObj,
      reqField fs "timestamp" isStr, reqField fs "dataset" isArrJ] = none := h
  have hstrat : reqField fs "strategy" checkStrategyObj = none :=
    firstErr_eq_none h' _ (by simp)
  exact reqField_eq_none hstrat

theorem typeFieldIs_eq {data : Json} {s : String}
    (h : typeFieldIs data s = true) : jget data "type" = some (Json.str s) := by
  unfold typeFieldIs at h
  cases hj : jget data "type" with
  | none => rw [hj] at h; simp at h
  | some v =>
    rw [hj] at h
    cases v with
    | str t =>
      have h2 : t = s := eq_of_beq (by simpa using h)
      rw [h2]
    | null => simp at h
    | bool b => simp at h
    | num q => simp at h
    | arr xs => simp at h
    | obj fs => simp at h

theorem typeFieldIs_obj {data : Json} {s : String}
    (h : typeFieldIs data s = true) : ∃ fs, data = .obj fs := by
  have := typeFieldIs_eq h
  cases data with
  | obj fs => exact ⟨fs, rfl⟩
  | null => simp [jget] at this
  | bool b => simp [jget] at this
  | num q => simp [jget] at this
  | str t => simp [jget] at this
  | arr xs => simp [jget] at this

theorem typeFieldIs_of_ne {data : Json} {s s2 : String}
    (h : typeFieldIs data s = true) (hne : s ≠ s2) :
    typeFieldIs data s2 = false := by
  unfold typeFieldIs
  rw [typeFieldIs_eq h]
  simp [hne]

theorem jlookup_setKey_self (fs : List (String × Json)) (k : String) (v : Json) :
    jlookup (setKey fs k v) k = some v := by
  induction fs with
  | nil => simp [setKey, jlookup]
  | cons p rest ih =>
    obtain ⟨k1, v1⟩ := p
    by_cases h : (k1 == k) = true
    · simp [setKey, h, jlookup]
    · rw [Bool.not_eq_true] at h
      simp [setKey, h, jlookup, ih]

theorem jlookup_setKey_ne (fs : List (String × Json)) (k : String) (v : Json)
    (k2 : String) (hne : k ≠ k2) :
    jlookup (setKey fs k v) k2 = jlookup fs k2 := by
  induction fs with
  | nil => simp [setKey, jlookup, hne]
  | cons p rest ih =>
    obtain ⟨k1, v1⟩ := p
    by_cases h : (k1 == k) = true
    · have h2 : k1 = k := eq_of_beq h
      subst h2
      simp [setKey, jlookup, hne]
    · rw [Bool.not_eq_true] at h
      simp [setKey, h, jlookup, ih]

theorem jsStrOr_ne_empty (s d : String) (hd : d ≠ "") : jsStrOr s d ≠ "" := by
  unfold jsStrOr
  by_cases h : (s == "") = true
  · simp [h, hd]
  · rw [Bool.not_eq_true] at h
    rw [h]
    simpa using h

theorem generic_of_validate_none {pid : Option Json} {payload : Json}
    (h : validatePlatePayload pid payload = none) :
    GenericPlateSchema payload = none := by
  unfold validatePlatePayload at h
  cases hg : GenericPlateSchema payload with
  | none => rfl
  | some e => rw [hg] at h; simp at h

/-- Shared shape of the validation-failure branch of the `MOUNT_PLATE` handler:
when the guard passes and `validatePlatePayload` fails, the mounted plate is the
corrupt derived record and exactly one render-error POST is attempted. -/
theorem corrupt_mount (hostCanVibrate : Bool) (nowMs : Nat) (timeStr : String)
    (st : WsState) (fs : List (String × Json)) (e : String)
    (hcond : (typeFieldIs (Json.obj fs) "MOUNT_PLATE" &&
      truthyOpt (jget (Json.obj fs) "strategy")) = true)
    (hval : validatePlatePayload (jget (Json.obj fs) "plate_id") (Json.obj fs) =
      some e) :
    ∃ p, (handleWsMessage hostCanVibrate nowMs timeStr st (Json.obj fs)).1.latestPlate =
        some p ∧
      jget p "is_corrupt" = some (Json.bool true) ∧
      (∃ msg, jget p "validation_error" = some (Json.str msg) ∧ msg ≠ "") ∧
      (handleWsMessage hostCanVibrate nowMs timeStr st (Json.obj fs)).2.renderErrorPosts = 1 := by
  simp only [Bool.and_eq_true] at hcond
  obtain ⟨htype, htruthy⟩ := hcond
  have htr : truthyOpt (jlookup fs "strategy") = true := htruthy
  have hval' : validatePlatePayload (jlookup fs "plate_id") (Json.obj fs) =
      some e := hval
  refine ⟨Json.obj (setKey (setKey fs "validation_error"
    (Json.str (jsStrOr e "Validation failed"))) "is_corrupt" (Json.bool true)),
    ?_, ?_, ?_, ?_⟩
  · simp [handleWsMessage, htype, htr, htruthy, hval, hval', setJField]
  · exact jlookup_setKey_self _ "is_corrupt" (Json.bool true)
  · refine ⟨jsStrOr e "Validation failed", ?_, jsStrOr_ne_empty _ _ (by decide)⟩
    show jlookup (setKey (setKey fs "validation_error"
      (Json.str (jsStrOr e "Validation failed"))) "is_corrupt" (Json.bool true))
        "validation_error" = _
    rw [jlookup_setKey_ne _ _ _ _ (by decide)]
    exact jlookup_setKey_self _ _ _
  · simp [handleWsMessage, htype, htr, htruthy, hval, hval']

/-! ### Claim theorems for the zod-validating provider -/

/-- Claim C1: every incoming `MOUNT_PLATE` frame that passes the structural
schema and (when its plate id names a specialized schema) the stricter
per-plate-id schema becomes the active plate — so the active plate's plate id
equals the frame's — and the active skin is set to the frame's
`strategy.skin`. -/
theorem mounted_plate_matches_frame (hostCanVibrate : Bool) (nowMs : Nat)
    (timeStr : String) (st : WsState) (data : Json)
    (htype : typeFieldIs data "MOUNT_PLATE" = true)
    (hval : validatePlatePayload (jget data "plate_id") data = none) :
    (handleWsMessage hostCanVibrate nowMs timeStr st data).1.latestPlate = some data ∧
    (∀ p, (handleWsMessage hostCanVibrate nowMs timeStr st data).1.latestPlate = some p →
      jget p "plate_id" = jget data "plate_id") ∧
    (∃ stratJson skin, jget data "strategy" = some stratJson ∧
      jget stratJson "skin" = some (Json.str skin) ∧
      (handleWsMessage hostCanVibrate nowMs timeStr st data).1.activeSkin = skin) := by
  have hgen := generic_of_validate_none hval
  obtain ⟨fs, rfl⟩ := GenericPlateSchema_obj hgen
  obtain ⟨v, hv, hcheck⟩ := generic_strategy_field hgen
  obtain ⟨sfs, rfl, ⟨s, hskin⟩, ⟨q, hurg⟩, ⟨b, hvib⟩⟩ := checkStrategyObj_parts hcheck
  have hstratget : jget (Json.obj fs) "strategy" = some (Json.obj sfs) := hv
  have htr : truthyOpt (jlookup fs "strategy") = true := by rw [hv]; rfl
  have hval' : validatePlatePayload (jlookup fs "plate_id") (Json.obj fs) =
      none := hval
  have htruthy : truthyOpt (jget (Json.obj fs) "strategy") = true := htr
  have hskinget : jget (Json.obj sfs) "skin" = some (Json.str s) := hskin
  have hplate : (handleWsMessage hostCanVibrate nowMs timeStr st
      (Json.obj fs)).1.latestPlate = some (Json.obj fs) := by
    simp [handleWsMessage, htype, htr, htruthy, hval, hval']
  refine ⟨hplate, ?_, ?_⟩
  · intro p hp
    rw [hplate] at hp
    cases hp
    rfl
  · refine ⟨Json.obj sfs, s, hstratget, hskin, ?_⟩
    simp [handleWsMessage, htype, htr, htruthy, hval, hval', hv, hstratget,
      strategyOfJson, hskin, hskinget, truthyOpt, truthy]

/-- Claim C2: every incoming `MOUNT_PLATE` frame (with a truthy strategy, as
the handler's guard requires) that fails the structural phase becomes a corrupt
active plate: the mounted record carries `is_corrupt = true` and a non-empty
`validation_error` string, and exactly one render-error POST is attempted. -/
theorem structural_failure_corrupt_plate (hostCanVibrate : Bool) (nowMs : Nat)
    (timeStr : String) (st : WsState) (data : Json) (e : String)
    (htype : typeFieldIs data "MOUNT_PLATE" = true)
    (hstrat : truthyOpt (jget data "strategy") = true)
    (hfail : GenericPlateSchema data = some e) :
    ∃ p, (handleWsMessage hostCanVibrate nowMs timeStr st data).1.latestPlate = some p ∧
      jget p "is_corrupt" = some (Json.bool true) ∧
      (∃ msg, jget p "validation_error" = some (Json.str msg) ∧ msg ≠ "") ∧
      (handleWsMessage hostCanVibrate nowMs timeStr st data).2.renderErrorPosts = 1 := by
  obtain ⟨fs, rfl⟩ := typeFieldIs_obj htype
  have hval : validatePlatePayload (jget (Json.obj fs) "plate_id") (Json.obj fs) =
      some e := by
    unfold validatePlatePayload
    rw [hfail]
  exact corrupt_mount hostCanVibrate nowMs timeStr st fs e
    (by rw [htype, hstrat]; rfl) hval

/-- Claim C3: a `MOUNT_PLATE` frame whose plate id names a specialized schema,
which passes the generic structural check but violates the specialized schema,
ends exactly like a structural failure: corrupt active plate with a non-empty
validation-error string and one render-error POST. -/
theorem semantic_failure_corrupt_plate (hostCanVibrate : Bool) (nowMs : Nat)
    (timeStr : String) (st : WsState) (data : Json) (pid : String) (e : String)
    (htype : typeFieldIs data "MOUNT_PLATE" = true)
    (hpid : jget data "plate_id" = some (Json.str pid))
    (hgen : GenericPlateSchema data = none)
    (hspec : specializedCheck pid data = some (some e)) :
    ∃ p, (handleWsMessage hostCanVibrate nowMs timeStr st data).1.latestPlate = some p ∧
      jget p "is_corrupt" = some (Json.bool true) ∧
      (∃ msg, jget p "validation_error" = some (Json.str msg) ∧ msg ≠ "") ∧
      (handleWsMessage hostCanVibrate nowMs timeStr st data).2.renderErrorPosts = 1 := by
  obtain ⟨fs, rfl⟩ := typeFieldIs_obj htype
  obtain ⟨v, hv, hcheck⟩ := generic_strategy_field hgen
  obtain ⟨sfs, rfl, _, _, _⟩ := checkStrategyObj_parts hcheck
  have hstrat : truthyOpt (jget (Json.obj fs) "strategy") = true := by
    show truthyOpt (jlookup fs "strategy") = true
    rw [hv]
    rfl
  have hval : validatePlatePayload (jget (Json.obj fs) "plate_id") (Json.obj fs) =
      some e := by
    simp [validatePlatePayload, hgen, hpid, hspec]
  exact corrupt_mount hostCanVibrate nowMs timeStr st fs e
    (by rw [htype, hstrat]; rfl) hval

/-- Claim C5: the audible path fires exactly when urgency is at least 9,
independently of the vibration flag, and (given host vibration support, which
the vibrate-in-navigator guard of the source also requires) the haptic path
fires exactly when the vibration flag is set, independently of urgency. -/
theorem sensory_feedback_independent (hostCanVibrate : Bool) (s : UIStrategy)
    (hhost : hostCanVibrate = true) :
    ((triggerSensoryFeedback hostCanVibrate s).audible = true ↔
      (9 : Rat) ≤ s.urgency) ∧
    ((triggerSensoryFeedback hostCanVibrate s).haptic = true ↔
      s.vibration = true) := by
  subst hhost
  constructor
  · simp [triggerSensoryFeedback]
  · simp [triggerSensoryFeedback]

/-- Witness strategy for C5: urgency 9.5 with vibration on fires both paths. -/
def urgentStrategy : UIStrategy :=
  { skin := "FIELD_DIAGNOSTIC", urgency := 19 / 2, vibration := true,
    overlay := none }

/-- Witness for C5 at a concrete strategy: both paths fire together. -/
theorem sensory_feedback_independent_witness :
    (triggerSensoryFeedback true urgentStrategy).audible = true ∧
    (triggerSensoryFeedback true urgentStrategy).haptic = true := by
  have h := sensory_feedback_independent true urgentStrategy rfl
  exact ⟨h.1.mpr (by norm_num [urgentStrategy]), h.2.mpr rfl⟩

/-- Claim C10: a frame whose type is `MOUNT_PLATE` but whose `strategy` field
is absent or falsy leaves the whole orchestrator state unchanged and produces
no POST and no sensory feedback: the guard short-circuits before validation,
and the frame matches neither `SYSTEM` nor `CHAT_RESPONSE`. -/
theorem mount_plate_without_strategy_noop (hostCanVibrate : Bool) (nowMs : Nat)
    (timeStr : String) (st : WsState) (data : Json)
    (htype : typeFieldIs data "MOUNT_PLATE" = true)
    (hstrat : truthyOpt (jget data "strategy") = false) :
    handleWsMessage hostCanVibrate nowMs timeStr st data = (st, quietEffects) := by
  have hsys : typeFieldIs data "SYSTEM" = false :=
    typeFieldIs_of_ne htype (by decide)
  have hchat : typeFieldIs data "CHAT_RESPONSE" = false :=
    typeFieldIs_of_ne htype (by decide)
  simp [handleWsMessage, htype, hstrat, hsys, hchat]

/-! ### Concrete frames and witnesses for the provider claims -/

/-- A state with a recognisable skin, used to observe skin changes. -/
def ghostWsState : WsState :=
  { activeSkin := "GHOST", latestPlate := none, messages := [] }

/-- A fully valid `MOUNT_PLATE` frame whose plate id has no specialized
schema. -/
def validFrame : Json := .obj [
  ("type", .str "MOUNT_PLATE"), ("plate_id", .str "TWIN_VIEW"),
  ("intent", .str "INVENTORY"), ("confidence", .num (94 / 100)),
  ("entities", .obj [("vin", .str "WBA93HM0XP1234567")]),
  ("target_entity", .str "BMW_M4_KAMM"),
  ("suggested_action", .str "Review twin"),
  ("strategy", .obj [("skin", .str "FIELD_DIAGNOSTIC"), ("urgency", .num 7),
    ("vibration", .bool true), ("overlay", .null)]),
  ("timestamp", .str "2026-02-25T09:41:00Z"), ("dataset", .arr [])]

/-- Witness for C1: the valid frame mounts as-is. -/
theorem mounted_plate_matches_frame_witness :
    typeFieldIs validFrame "MOUNT_PLATE" = true ∧
    validatePlatePayload (jget validFrame "plate_id") validFrame = none ∧
    (handleWsMessage true 0 "09:41" ghostWsState validFrame).1.latestPlate =
      some validFrame := by
  refine ⟨rfl, rfl, ?_⟩
  exact (mounted_plate_matches_frame true 0 "09:41" ghostWsState validFrame
    rfl rfl).1

/-- A `MOUNT_PLATE` frame with a well-formed strategy but missing required
top-level fields, so structural validation fails (first issue: `intent`). -/
def truncatedFrame : Json := .obj [
  ("type", .str "MOUNT_PLATE"), ("plate_id", .str "TWIN_VIEW"),
  ("strategy", .obj [("skin", .str "GHOST"), ("urgency", .num 2),
    ("vibration", .bool false), ("overlay", .null)])]

/-- Witness for C2: the structurally broken frame mounts as a corrupt plate. -/
theorem structural_failure_corrupt_plate_witness :
    GenericPlateSchema truncatedFrame = some "intent: Required" ∧
    (∃ p, (handleWsMessage true 0 "09:41" ghostWsState truncatedFrame).1.latestPlate =
        some p ∧
      jget p "is_corrupt" = some (Json.bool true) ∧
      (∃ msg, jget p "validation_error" = some (Json.str msg) ∧ msg ≠ "") ∧
      (handleWsMessage true 0 "09:41" ghostWsState truncatedFrame).2.renderErrorPosts = 1) := by
  refine ⟨rfl, ?_⟩
  exact structural_failure_corrupt_plate true 0 "09:41" ghostWsState
    truncatedFrame "intent: Required" rfl rfl rfl

/-- A `FINANCE_NOTE` frame passing the structural schema (it has every generic
field) but omitting `principal_amount`, violating `FinancePlateSchema`. -/
def financeNoteFrame : Json := .obj [
  ("type", .str "MOUNT_PLATE"), ("plate_id", .str "FINANCE_NOTE"),
  ("intent", .str "FINANCE"), ("confidence", .num (96 / 100)),
  ("entities", .obj [("vin", .str "WBA99X0XP1234500")]),
  ("target_entity", .str "KAMM_LLC"),
  ("suggested_action", .str "Review note"),
  ("strategy", .obj [("skin", .str "SUPER_ADMIN"), ("urgency", .num 4),
    ("vibration", .bool false), ("overlay", .null)]),
  ("timestamp", .str "2026-02-25T09:41:00Z"), ("dataset", .arr []),
  ("vin", .str "WBA99X0XP1234500"), ("lender_name", .str "Auto-Owners Capital")]

/-- Witness for C3: the finance-note frame missing `principal_amount` mounts
as a corrupt plate with one report attempted. -/
theorem semantic_failure_corrupt_plate_witness :
    GenericPlateSchema financeNoteFrame = none ∧
    specializedCheck "FINANCE_NOTE" financeNoteFrame =
      some (some "principal_amount: Required") ∧
    (∃ p, (handleWsMessage true 0 "09:41" ghostWsState financeNoteFrame).1.latestPlate =
        some p ∧
      jget p "is_corrupt" = some (Json.bool true) ∧
      (∃ msg, jget p "validation_error" = some (Json.str msg) ∧ msg ≠ "") ∧
      (handleWsMessage true 0 "09:41" ghostWsState financeNoteFrame).2.renderErrorPosts = 1) := by
  refine ⟨rfl, rfl, ?_⟩
  exact semantic_failure_corrupt_plate true 0 "09:41" ghostWsState
    financeNoteFrame "FINANCE_NOTE" "principal_amount: Required" rfl rfl rfl rfl

/-- Witness for C10: a `MOUNT_PLATE` frame with no `strategy` field at all
changes nothing. -/
def mountNoStrategyFrame : Json := .obj [("type", .str "MOUNT_PLATE")]

/-- Witness for C10 at a concrete frame. -/
theorem mount_plate_without_strategy_noop_witness :
    handleWsMessage true 0 "09:41" ghostWsState mountNoStrategyFrame =
      (ghostWsState, quietEffects) :=
  mount_plate_without_strategy_noop true 0 "09:41" ghostWsState
    mountNoStrategyFrame rfl rfl

/-- The spec's example `FINANCE_CHART` frame, verbatim: only generic fields,
urgency 3, vibration false, one dataset row. -/
def exampleFrame : Json := .obj [
  ("type", .str "MOUNT_PLATE"), ("plate_id", .str "FINANCE_CHART"),
  ("intent", .str "FINANCE"), ("confidence", .num (97 / 100)),
  ("entities", .obj [("lane", .str "A")]),
  ("target_entity", .str "ALL_ENTITIES"),
  ("suggested_action", .str "Review margin"),
  ("strategy", .obj [("skin", .str "SUPER_ADMIN"), ("urgency", .num 3),
    ("vibration", .bool false), ("overlay", .null)]),
  ("timestamp", .str "2026-02-25T09:41:00Z"),
  ("dataset", .arr [.obj [("week", .str "W1"), ("AutoHaus", .num 14200)]])]

/-- Claim C4, evaluated on the code: contrary to the claim, `FINANCE_CHART`
falls into the finance branch of `validatePlatePayload`, so the spec's example
frame fails validation (`vin: Required`); the frame becomes a corrupt active
plate, the skin is not switched to the frame's `SUPER_ADMIN`, one render-error
POST is attempted, and neither feedback path fires. -/
theorem finance_chart_example_flagged_corrupt :
    validatePlatePayload (jget exampleFrame "plate_id") exampleFrame =
      some "vin: Required" ∧
    (handleWsMessage true 0 "09:41" ghostWsState exampleFrame).1.activeSkin = "GHOST" ∧
    (∃ p, (handleWsMessage true 0 "09:41" ghostWsState exampleFrame).1.latestPlate =
        some p ∧
      jget p "is_corrupt" = some (Json.bool true) ∧
      jget p "validation_error" = some (Json.str "vin: Required")) ∧
    (handleWsMessage true 0 "09:41" ghostWsState exampleFrame).2.renderErrorPosts = 1 ∧
    (handleWsMessage true 0 "09:41" ghostWsState exampleFrame).2.feedback.audible = false ∧
    (handleWsMessage true 0 "09:41" ghostWsState exampleFrame).2.feedback.haptic = false :=
  ⟨rfl, rfl, ⟨_, rfl, rfl, rfl⟩, rfl, rfl, rfl⟩

/-! ### Claim theorems for the demo orchestrator context -/

theorem ctxStep_staged_le (st : CtxState) (op : CtxOp)
    (h : st.stagedFiles.length ≤ 5) : ((ctxStep st op).stagedFiles).length ≤ 5 := by
  cases op with
  | stage files =>
    simp [ctxStep, stageFiles, List.length_take]
  | remove i =>
    have h1 : ((st.stagedFiles.enum.filter (fun p => p.1 != i)).map Prod.snd).length =
        (st.stagedFiles.enum.filter (fun p => p.1 != i)).length :=
      List.length_map _ _
    have h2 : (st.stagedFiles.enum.filter (fun p => p.1 != i)).length ≤
        st.stagedFiles.enum.length := List.length_filter_le _ _
    have h3 : st.stagedFiles.enum.length = st.stagedFiles.length :=
      List.enum_length
    simp only [ctxStep, removeStaged]
    omega
  | send w u n t text files =>
    simp only [ctxStep, sendMessage]
    split
    · exact h
    · simp
  | resolve n t v =>
    simpa [ctxStep, handleResolve] using h
  | reply m p =>
    simpa [ctxStep, replyArrives] using h

theorem foldl_staged_le (ops : List CtxOp) :
    ∀ st : CtxState, st.stagedFiles.length ≤ 5 →
      (((ops.foldl ctxStep st).stagedFiles).length ≤ 5) := by
  induction ops with
  | nil => intro st h; simpa using h
  | cons op rest ih =>
    intro st h
    exact ih _ (ctxStep_staged_le st op h)

/-- Claim C6: after any sequence of staging, removal, send, resolve and reply
operations from the initial state, at most 5 files are staged; and one staging
operation keeps exactly the first five entries of the
existing-then-newly-added concatenation. -/
theorem staged_files_bounded :
    (∀ ops : List CtxOp, ((ops.foldl ctxStep initCtxState).stagedFiles).length ≤ 5) ∧
    (∀ (st : CtxState) (files : List StagedFile),
      (stageFiles st files).stagedFiles = (st.stagedFiles ++ files).take 5) := by
  constructor
  · intro ops
    exact foldl_staged_le ops initCtxState (by simp [initCtxState])
  · intro st files
    rfl

/-- Claim C7: a send with whitespace-only text and zero staged files is a
complete no-op — the state (transcript, processing indicator, staged files,
input) is unchanged and no frame is transmitted. -/
theorem send_empty_noop (st : CtxState) (wsOpen : Bool) (userId : String)
    (nowMs : Nat) (timeStr : String) (text : String)
    (htext : jsTrim text = "") :
    sendMessage st wsOpen userId nowMs timeStr text [] = (st, []) := by
  unfold sendMessage
  simp [htext]

/-- Witness for C7: sending three spaces with no staged files changes
nothing. -/
theorem send_empty_noop_witness :
    (jsTrim "   " = "") ∧
    sendMessage initCtxState true "AHSIN_CEO" 5 "10:00" "   " [] =
      (initCtxState, []) :=
  ⟨by decide, send_empty_noop initCtxState true "AHSIN_CEO" 5 "10:00" "   "
    (by decide)⟩

/-- Claim C8 counterexample: contrary to the claim's "transmits the selection
over the channel", `handleResolve` performs no send — its transmitted-frame
list is empty at the source's first `ENTITY_OPTIONS` candidate. -/
theorem resolve_transmits_nothing_counterexample :
    (handleResolve initCtxState 1 "09:42" entityOptionKamm).2 = [] := rfl

/-- Claim C8 as amended: confirming a collision selection appends exactly one
bot-origin transcript entry whose entity field is the option's entity label and
whose text interpolates the entity label and VIN, and clears the active plate;
no frame is transmitted by the handler. -/
theorem resolve_appends_confirmation_and_clears_plate (st : CtxState)
    (nowMs : Nat) (timeStr : String) (v : EntityOption) :
    (handleResolve st nowMs timeStr v).1.messages =
      st.messages ++ [collisionMessage nowMs timeStr v] ∧
    (collisionMessage nowMs timeStr v).isBot = true ∧
    (collisionMessage nowMs timeStr v).entity = some v.entity ∧
    (collisionMessage nowMs timeStr v).text =
      some ("Collision resolved. Entity confirmed: " ++ v.entity ++ " · VIN " ++
        v.vin ++
        ". Workflow resumed. Identity Engine updated. What update would you like to apply?") ∧
    (handleResolve st nowMs timeStr v).1.plate = none ∧
    (handleResolve st nowMs timeStr v).2 = [] :=
  ⟨rfl, rfl, rfl, rfl, rfl, rfl⟩

/-- Claim C9: no interaction step of the anomaly plate can invoke the decision
callback with `OVERRIDE` while the override-reason text is empty; and once the
reason field is shown and holds non-empty text, clicking the override control
records the `OVERRIDE` decision. -/
theorem override_requires_reason (ui : AnomalyUI) (e : AnomalyEvent) :
    ((anomalyStep ui e).2 = some "OVERRIDE" → ui.overrideText ≠ "") ∧
    (ui.decisionState = none → ui.showOverride = true → ui.overrideText ≠ "" →
      (anomalyStep ui AnomalyEvent.clickOverride).2 = some "OVERRIDE") := by
  constructor
  · intro h
    unfold anomalyStep at h
    cases e with
    | clickApprove =>
      by_cases hd : ui.decisionState.isSome = true
      · simp [hd] at h
      · simp [hd] at h
    | clickOverride =>
      by_cases hd : ui.decisionState.isSome = true
      · simp [hd] at h
      · by_cases hs : ui.showOverride = true
        · by_cases ht : ui.overrideText = ""
          · simp [hd, hs, ht] at h
          · exact ht
        · simp [hd, hs] at h
    | setOverrideText s =>
      by_cases hd : ui.decisionState.isSome = true
      · simp [hd] at h
      · by_cases hs : ui.showOverride = true
        · simp [hd, hs] at h
        · simp [hd, hs] at h
  · intro h1 h2 h3
    simp [anomalyStep, h1, h2, h3]

/-- Witness state for C9: reason field shown with non-empty text. -/
def readyAnomalyUI : AnomalyUI :=
  { decisionState := none, overrideText := "Rush job for VIP client",
    showOverride := true }

/-- Witness for C9: with a non-empty reason the override click records the
decision, and the recording implies the reason was non-empty. -/
theorem override_requires_reason_witness :
    (anomalyStep readyAnomalyUI AnomalyEvent.clickOverride).2 = some "OVERRIDE" ∧
    readyAnomalyUI.overrideText ≠ "" := by
  have h := override_requires_reason readyAnomalyUI AnomalyEvent.clickOverride
  have h2 := h.2 rfl rfl (by decide)
  exact ⟨h2, h.1 h2⟩

end Autohaus
